import Mathlib

/-!
Verification of `src/backend/src/device_management/device.rs` (openitool).

The file embeds the three Tauri commands of `device.rs` — `install_ipcc`,
`check_installing_succeed` and `check_device` — as pure Lean functions from
an explicit environment (the results of the external `rsmobiledevice` calls)
to a trace of observable effects (window emissions, log entries, installer
invocations).  The race mechanism `log_to_custom_with_timeout_or_else` lives
in the external `rsmobiledevice` crate and is modelled from the spec.
-/

set_option autoImplicit false

namespace Openitool

/-- One observable effect of a command: a `window.emit` with a boolean
payload, a `window.emit` whose payload is an opaque structured value
(the four attribute summaries), a log entry, a `println!`, or the act of
calling the external installer (`install_from_path_with_callback`). -/
inductive Emitted where
  | emit (event : String) (payload : Bool)
  | emitAttr (event : String)
  | logInfo (msg : String)
  | logError (msg : String)
  | logWarn (msg : String)
  | printLn (msg : String)
  | invokeInstaller (path : String)
deriving DecidableEq, Repr

/-- Environment of one `install_ipcc` call: the results of the external
`rsmobiledevice` calls it makes.
`client` is `DeviceClient::new().and_then(get_first_device)`;
`connectedModel` / `connectedVersion` are
`get_value(ProductType/ProductVersion, All)` (`none` models `Err`, handled
by `unwrap_or_default`); `installResult` is
`install_from_path_with_callback`: `Except.error e` means the installer
call failed with error `e` (no progress delivered), `Except.ok msgs` means
it ran and delivered the progress messages `msgs`, each message represented
by the result of `status.rfind("Status")` (an optional field value). -/
structure InstallEnv where
  client : Except String Unit
  connectedModel : Option String
  connectedVersion : Option String
  installResult : Except String (List (Option String))

/-- The progress callback passed to `install_from_path_with_callback`
(device.rs lines 56–62): `v` is `status.rfind("Status")`; it emits
`carrier_bundle_install_status = true` exactly when the found field value
equals `"Completed"`. -/
def progressCallback (v : Option String) : List Emitted :=
  if v = some "Completed" then
    [Emitted.emit "carrier_bundle_install_status" true]
  else
    []

/-- `install_ipcc(window, device_model, ios_ver)` (device.rs lines 16–76),
with the spawned thread run to completion in place. -/
def install_ipcc (device_model ios_ver : String) (env : InstallEnv) :
    List Emitted :=
  match env.client with
  | Except.error client_error =>
      [Emitted.logError ("Failed to initialize device client: " ++ client_error),
       Emitted.emit "carrier_bundle_install_status" false]
  | Except.ok _ =>
      let connected_model := env.connectedModel.getD ""
      let connected_ios_ver := env.connectedVersion.getD ""
      if device_model ≠ connected_model ∨ ios_ver ≠ connected_ios_ver then
        [Emitted.logInfo ("Model or iOS version mismatch: expected " ++
           device_model ++ ":" ++ ios_ver ++ ", got " ++
           connected_model ++ ":" ++ connected_ios_ver),
         Emitted.emit "carrier_bundle_install_status" false]
      else
        Emitted.invokeInstaller "~/y.ipcc" ::
        match env.installResult with
        | Except.error e =>
            [Emitted.logError ("Installation failed: " ++ e),
             Emitted.emit "carrier_bundle_install_status" true]
        | Except.ok msgs =>
            msgs.flatMap progressCallback ++
              [Emitted.logInfo "IPCC installation started"]

/-- `line` contains `phrase` as a contiguous substring. -/
def containsPhrase (phrase line : String) : Prop :=
  ∃ pre post, line.toList = pre ++ phrase.toList ++ post

/-! ### The syslog filter pattern of `check_installing_succeed`

`check_installing_succeed` compiles `Regex::new(r"/\b\w*SIM is Ready\w*\b/i")`
(device.rs line 90).  In the Rust `regex` crate the slashes and the trailing
`i` are ordinary literal characters, not delimiters or flags, so the compiled
pattern searches the haystack for

  `'/'  \b  \w*  "SIM is Ready"  \w*  \b  '/'  'i'`.

Both `\b` assertions are automatically satisfied at those positions: each
sits between the non-word character `'/'` and a word character (`'S'`, `'y'`
or a `\w` repetition), so the executable matcher below omits them without
changing the matched language. -/

/-- A regex word character (`\w`): ASCII letter, digit or underscore
(the pattern only ever meets ASCII in the surrounding literals). -/
def isWordChar (c : Char) : Bool :=
  c.isAlphanum || c = '_'

/-- The literal middle part of the pattern. -/
def simReadyLit : List Char := "SIM is Ready".toList

/-- Matches `\w* '/' 'i'` against a prefix of `s` (the rest of the haystack
after the match is unconstrained). -/
def tailMatch : List Char → Bool
  | [] => false
  | '/' :: 'i' :: _ => true
  | c :: rest => isWordChar c && tailMatch rest

/-- Matches `\w* "SIM is Ready" \w* '/' 'i'` against a prefix of `s`. -/
def midMatch : List Char → Bool
  | [] => false
  | c :: rest =>
      (simReadyLit.isPrefixOf (c :: rest) &&
        tailMatch ((c :: rest).drop simReadyLit.length)) ||
      (isWordChar c && midMatch rest)

/-- Scans the haystack for a match start: a literal `'/'` followed by the
rest of the pattern. -/
def scanMatch : List Char → Bool
  | [] => false
  | c :: rest => (c = '/' && midMatch rest) || scanMatch rest

/-- The compiled pattern of device.rs line 90, searched anywhere in `line`:
a literal `'/'`, then `\w*`, the literal `SIM is Ready`, `\w*`, and the
literal characters `'/'` `'i'`. -/
def simRegexMatches (line : String) : Bool :=
  scanMatch line.toList

/-- Outcome of one completion race (spec §3 `LogMatchOutcome`). -/
inductive LogMatchOutcome where
  | matched (line : String)
  | timedOut
deriving DecidableEq, Repr

/-- Whether the race was won by the log match. -/
def LogMatchOutcome.isMatched : LogMatchOutcome → Bool
  | matched _ => true
  | timedOut => false

/-- Modelled from the spec: the CompletionRace resolution of
`log_to_custom_with_timeout_or_else` (spec §4.3), whose implementation is in
the external `rsmobiledevice` crate, not in this repository's sources.  The
live log stream is a list of `(arrival time, line)` pairs in arrival order;
the race resolves to `matched line` on the first line satisfying the filter
that arrives strictly before the deadline, and to `timedOut` otherwise;
exactly one outcome is produced per armed race. -/
def raceResolve (filter : String → Bool) (timeout : Nat)
    (stream : List (Nat × String)) : LogMatchOutcome :=
  match stream.find? (fun e => decide (e.1 < timeout) && filter e.2) with
  | some e => LogMatchOutcome.matched e.2
  | none => LogMatchOutcome.timedOut

/-- Environment of one `check_installing_succeed` call.
`client` is `DeviceClient::new().and_then(get_first_device)`; `regexOk`
is the success of `Regex::new` on the fixed pattern (in reality always
`true` — the pattern is valid `regex`-crate syntax — but the code carries
the error branch, lines 96–100); `monitorStart` is whether
`log_to_custom_with_timeout_or_else` started the monitoring (its `Result`);
`stream` is the timestamped live log feed consumed by the armed race. -/
structure SyslogEnv where
  client : Except String Unit
  regexOk : Bool
  monitorStart : Except String Unit
  stream : List (Nat × String)

/-- `check_installing_succeed(window)` (device.rs lines 78–134): the armed
race (filter = the compiled pattern, timeout = 40 s) yields either the
matched callback (lines 115–118, `installation_succeed_status = true`) or
the timed-out callback (lines 120–123, `installation_succeed_status =
false`). -/
def check_installing_succeed (env : SyslogEnv) : List Emitted :=
  match env.client with
  | Except.error e =>
      [Emitted.logError ("Failed to initialize device client: " ++ e),
       Emitted.emit "installation_succeed_status" false]
  | Except.ok _ =>
      if env.regexOk then
        match env.monitorStart with
        | Except.error e =>
            [Emitted.logError ("Syslog monitoring failed: " ++ e),
             Emitted.emit "installation_succeed_status" false]
        | Except.ok _ =>
            match raceResolve simRegexMatches 40 env.stream with
            | LogMatchOutcome.matched _ =>
                [Emitted.logInfo "SIM ready detected",
                 Emitted.emit "installation_succeed_status" true]
            | LogMatchOutcome.timedOut =>
                [Emitted.logWarn "SIM ready not detected within 40s",
                 Emitted.emit "installation_succeed_status" false]
      else
        [Emitted.logError "Failed to create a new regex",
         Emitted.emit "installation_succeed_status" false]

/-! ### `check_device` -/

/-- A presence event (`rsmobiledevice::device::Event`). -/
inductive Event where
  | connect
  | disconnect
  | pair
deriving DecidableEq, Repr

/-- Environment of one handled presence event: the result of
`DeviceClient::new().and_then(get_first_device)` performed inside the
`Connect` arm (device.rs lines 146–152). -/
structure ConnectEnv where
  client : Except String Unit

/-- Result of running the presence-event handler on one event: either it
ran to completion with a trace of effects, or it aborted (the `.unwrap()`
of device.rs line 152 panicked) after the given prefix of effects. -/
inductive HandlerResult where
  | completed (trace : List Emitted)
  | panicked (trace : List Emitted)
deriving DecidableEq, Repr

/-- The trace of effects the handler produced, completed or not. -/
def HandlerResult.trace : HandlerResult → List Emitted
  | completed tr => tr
  | panicked tr => tr

/-- The presence-event handler closure of `check_device`
(device.rs lines 140–176). -/
def handleEvent (cenv : ConnectEnv) : Event → HandlerResult
  | Event.connect =>
      let pre := [Emitted.printLn "connected",
                  Emitted.logInfo "device connected",
                  Emitted.emit "device_status" true]
      match cenv.client with
      | Except.error _ => HandlerResult.panicked pre
      | Except.ok _ =>
          HandlerResult.completed (pre ++
            [Emitted.emitAttr "device_hardware",
             Emitted.emitAttr "device_storage",
             Emitted.emitAttr "device_battery",
             Emitted.emitAttr "device_os"])
  | Event.disconnect =>
      HandlerResult.completed
        [Emitted.printLn "disconnected",
         Emitted.logInfo "device disconnected",
         Emitted.emit "device_status" false]
  | Event.pair => HandlerResult.completed []

/-- Environment of one `check_device` call: the result of
`rsmobiledevice::device::event_subscribe` (device.rs line 140). -/
structure CheckDeviceEnv where
  subscribeResult : Except String Unit

/-- Delivery of the presence events to the registered handler, in order;
a handler panic kills the delivery thread, so no later event is handled. -/
def deliverAll : List (Event × ConnectEnv) → List Emitted
  | [] => []
  | (ev, cenv) :: rest =>
      match handleEvent cenv ev with
      | HandlerResult.completed tr => tr ++ deliverAll rest
      | HandlerResult.panicked tr => tr

/-- `check_device(window)` (device.rs lines 136–178): emits the initial
negative `device_status`, then subscribes.  The returned `Except` is the
`Result` of `event_subscribe` as received by `check_device` (which the
source then `.unwrap()`s, line 177): an error there is handed back, not
converted to a notification.  When the subscription succeeds the events
`events` are delivered to the handler. -/
def check_device (env : CheckDeviceEnv) (events : List (Event × ConnectEnv)) :
    List Emitted × Except String Unit :=
  match env.subscribeResult with
  | Except.error e => ([Emitted.emit "device_status" false], Except.error e)
  | Except.ok _ =>
      (Emitted.emit "device_status" false :: deliverAll events, Except.ok ())

/-- Selects the emissions of the boolean outcome event `name` in a trace. -/
def isOutcomeEmit (name : String) : Emitted → Bool
  | Emitted.emit n _ => n = name
  | _ => false

/-! ## Theorems -/

/-- Every string accepted by the scanner contains the character `'/'`. -/
theorem scanMatch_mem_slash (s : List Char) (h : scanMatch s = true) :
    '/' ∈ s := by
  induction s with
  | nil => simp [scanMatch] at h
  | cons c rest ih =>
      simp only [scanMatch, Bool.or_eq_true, Bool.and_eq_true,
        decide_eq_true_eq] at h
      rcases h with ⟨hc, -⟩ | h
      · exact hc ▸ List.mem_cons_self c rest
      · exact List.mem_cons_of_mem c (ih h)

/-- C3: the single-shot success filter registered by
`check_installing_succeed`, taken literally, never matches a real readiness
line: every log line that contains the phrase `SIM is Ready` but no literal
`'/'` character is rejected by the compiled pattern (which demands the
surrounding `'/' … '/' 'i'` characters in the text). -/
theorem simRegex_never_matches_slashless_line (line : String)
    (_hphrase : containsPhrase "SIM is Ready" line)
    (hslash : '/' ∉ line.toList) :
    simRegexMatches line = false := by
  cases h : simRegexMatches line with
  | false => rfl
  | true => exact absurd (scanMatch_mem_slash line.toList h) hslash

/-- Witness for C3 at the plain readiness line `"SIM is Ready"`. -/
theorem simRegex_never_matches_slashless_line_witness :
    containsPhrase "SIM is Ready" "SIM is Ready" ∧
      '/' ∉ "SIM is Ready".toList ∧
      simRegexMatches "SIM is Ready" = false :=
  ⟨⟨[], [], by simp⟩, by decide,
    simRegex_never_matches_slashless_line "SIM is Ready"
      ⟨[], [], by simp⟩ (by decide)⟩

/-- C4: the installer progress callback of `install_ipcc` emits the
positive outcome exactly for a progress message whose `Status` field value
is literally `"Completed"`; a value merely containing `"Completed"` as a
substring (such as `"StatusCompletedByUser"`) triggers nothing. -/
theorem progress_positive_iff_exact_completed :
    (∀ v : Option String,
        Emitted.emit "carrier_bundle_install_status" true ∈ progressCallback v
          ↔ v = some "Completed") ∧
    (∀ s : String, containsPhrase "Completed" s → s ≠ "Completed" →
        progressCallback (some s) = []) := by
  constructor
  · intro v
    by_cases hv : v = some "Completed" <;> simp [progressCallback, hv]
  · intro s hsub hne
    simp [progressCallback, hne]

/-- Witness for C4 at the false-positive-shaped value
`"StatusCompletedByUser"`. -/
theorem progress_positive_iff_exact_completed_witness :
    containsPhrase "Completed" "StatusCompletedByUser" ∧
      "StatusCompletedByUser" ≠ "Completed" ∧
      progressCallback (some "StatusCompletedByUser") = [] :=
  ⟨⟨"Status".toList, "ByUser".toList, by decide⟩, by decide,
    progress_positive_iff_exact_completed.2 "StatusCompletedByUser"
      ⟨"Status".toList, "ByUser".toList, by decide⟩ (by decide)⟩

/-- C5: on an identity mismatch (device-client acquisition succeeded but the
snapshotted model or firmware version differs from the caller-supplied
expected identity), `install_ipcc` logs the discrepancy, emits the negative
`carrier_bundle_install_status` and never invokes the external installer. -/
theorem install_ipcc_mismatch_negative_no_install
    (device_model ios_ver : String) (env : InstallEnv)
    (hc : env.client = Except.ok ())
    (hm : device_model ≠ env.connectedModel.getD "" ∨
          ios_ver ≠ env.connectedVersion.getD "") :
    install_ipcc device_model ios_ver env =
      [Emitted.logInfo ("Model or iOS version mismatch: expected " ++
         device_model ++ ":" ++ ios_ver ++ ", got " ++
         env.connectedModel.getD "" ++ ":" ++ env.connectedVersion.getD ""),
       Emitted.emit "carrier_bundle_install_status" false] ∧
    (∀ p, Emitted.invokeInstaller p ∉ install_ipcc device_model ios_ver env) ∧
    Emitted.emit "carrier_bundle_install_status" true ∉
      install_ipcc device_model ios_ver env := by
  rcases env with ⟨client, cm, cv, ir⟩
  simp only at hc hm
  subst hc
  refine ⟨?_, ?_, ?_⟩ <;> simp [install_ipcc, hm]

/-- Witness for C5: expected model `iPhone12,1`, connected model
`iPhone13,1`, equal firmware versions. -/
theorem install_ipcc_mismatch_negative_no_install_witness :
    install_ipcc "iPhone12,1" "17.0"
        ⟨Except.ok (), some "iPhone13,1", some "17.0", Except.ok []⟩ =
      [Emitted.logInfo ("Model or iOS version mismatch: expected " ++
         "iPhone12,1" ++ ":" ++ "17.0" ++ ", got " ++
         (some "iPhone13,1").getD "" ++ ":" ++ (some "17.0").getD ""),
       Emitted.emit "carrier_bundle_install_status" false] ∧
    (∀ p, Emitted.invokeInstaller p ∉ install_ipcc "iPhone12,1" "17.0"
        ⟨Except.ok (), some "iPhone13,1", some "17.0", Except.ok []⟩) ∧
    Emitted.emit "carrier_bundle_install_status" true ∉
      install_ipcc "iPhone12,1" "17.0"
        ⟨Except.ok (), some "iPhone13,1", some "17.0", Except.ok []⟩ :=
  install_ipcc_mismatch_negative_no_install "iPhone12,1" "17.0"
    ⟨Except.ok (), some "iPhone13,1", some "17.0", Except.ok []⟩
    rfl (Or.inl (by decide))

/-- C2 divergence, evaluated: when the device client is acquired, the
identity matches and the external installer call fails to start, the code
logs the failure but emits `carrier_bundle_install_status = true` — the
positive payload — instead of the negative outcome the spec requires
(device.rs line 65). -/
theorem install_ipcc_start_failure_emits_true :
    install_ipcc "iPhone12,1" "17.0"
        ⟨Except.ok (), some "iPhone12,1", some "17.0",
         Except.error "device busy"⟩ =
      [Emitted.invokeInstaller "~/y.ipcc",
       Emitted.logError "Installation failed: device busy",
       Emitted.emit "carrier_bundle_install_status" true] := by
  simp [install_ipcc]

/-- C1: whenever `check_installing_succeed` actually arms the
log-match-vs-timeout race (client acquired, pattern compiled, monitoring
started), its trace carries exactly one `installation_succeed_status`
emission, whose payload is `true` exactly when the race was won by the log
match and `false` exactly when it timed out — never both, never neither. -/
theorem check_installing_exactly_one_outcome (env : SyslogEnv)
    (hc : env.client = Except.ok ()) (hr : env.regexOk = true)
    (hm : env.monitorStart = Except.ok ()) :
    (check_installing_succeed env).filter
        (isOutcomeEmit "installation_succeed_status") =
      [Emitted.emit "installation_succeed_status"
        (raceResolve simRegexMatches 40 env.stream).isMatched] := by
  rcases env with ⟨client, regexOk, monitor, stream⟩
  simp only at hc hr hm
  subst hc; subst hr; subst hm
  cases h : raceResolve simRegexMatches 40 stream with
  | matched l =>
      simp [check_installing_succeed, h, isOutcomeEmit,
        LogMatchOutcome.isMatched, List.filter]
  | timedOut =>
      simp [check_installing_succeed, h, isOutcomeEmit,
        LogMatchOutcome.isMatched, List.filter]

/-- Witness for C1: an armed race over an empty log stream times out and
produces the single negative outcome emission. -/
theorem check_installing_exactly_one_outcome_witness :
    (check_installing_succeed
        ⟨Except.ok (), true, Except.ok (), []⟩).filter
        (isOutcomeEmit "installation_succeed_status") =
      [Emitted.emit "installation_succeed_status"
        (raceResolve simRegexMatches 40 []).isMatched] :=
  check_installing_exactly_one_outcome
    ⟨Except.ok (), true, Except.ok (), []⟩ rfl rfl rfl

/-- C6: the result of the presence-event subscription reaches `check_device`
unchanged — `check_device`'s outcome is exactly `event_subscribe`'s
`Result`, so a `SubscriptionError` is the only error handed back rather
than handled internally, and when it occurs no notification beyond the
initial negative `device_status` is emitted (no internal conversion of the
error into an outcome notification). -/
theorem check_device_propagates_subscription_error (env : CheckDeviceEnv)
    (events : List (Event × ConnectEnv)) :
    (check_device env events).2 = env.subscribeResult ∧
    (∀ e, env.subscribeResult = Except.error e →
        check_device env events =
          ([Emitted.emit "device_status" false], Except.error e)) := by
  rcases env with ⟨sub⟩
  cases sub <;> simp [check_device]

/-- Witness for C6: a failed subscription is handed back verbatim with only
the initial negative presence emission in the trace. -/
theorem check_device_propagates_subscription_error_witness :
    (check_device ⟨Except.error "usbmuxd unavailable"⟩ []).2 =
        Except.error "usbmuxd unavailable" ∧
      check_device ⟨Except.error "usbmuxd unavailable"⟩ [] =
        ([Emitted.emit "device_status" false],
         Except.error "usbmuxd unavailable") :=
  ⟨(check_device_propagates_subscription_error
      ⟨Except.error "usbmuxd unavailable"⟩ []).1,
   (check_device_propagates_subscription_error
      ⟨Except.error "usbmuxd unavailable"⟩ []).2 "usbmuxd unavailable" rfl⟩

/-- C7 divergence, evaluated: when device-client acquisition fails after a
`Connect` event fires, the handler does not run to completion — the
`.unwrap()` of device.rs line 152 aborts it (panics) after the first three
effects, instead of degrading to "unavailable" results. -/
theorem connect_handler_panics_on_client_failure :
    handleEvent ⟨Except.error "DeviceNotFound"⟩ Event.connect =
      HandlerResult.panicked
        [Emitted.printLn "connected",
         Emitted.logInfo "device connected",
         Emitted.emit "device_status" true] :=
  rfl

/-- C8: for every handled `Connect` event, the positive presence
notification `device_status = true` appears in the handler's trace before
any of the four attribute-result notifications, whatever the outcome of the
client acquisition. -/
theorem connect_emits_presence_before_attributes (cenv : ConnectEnv) :
    ∃ pre post,
      (handleEvent cenv Event.connect).trace =
          pre ++ Emitted.emit "device_status" true :: post ∧
        ∀ name, Emitted.emitAttr name ∉ pre := by
  rcases cenv with ⟨client⟩
  cases client with
  | error e =>
      exact ⟨[Emitted.printLn "connected", Emitted.logInfo "device connected"],
        [], rfl, by simp⟩
  | ok u =>
      exact ⟨[Emitted.printLn "connected", Emitted.logInfo "device connected"],
        [Emitted.emitAttr "device_hardware", Emitted.emitAttr "device_storage",
         Emitted.emitAttr "device_battery", Emitted.emitAttr "device_os"],
        rfl, by simp⟩

/-- C9: a `Paired` presence event is a no-op at the notifier boundary: the
handler completes with an empty trace — no emission, no log entry, no
installer call. -/
theorem pair_event_is_noop (cenv : ConnectEnv) :
    handleEvent cenv Event.pair = HandlerResult.completed [] :=
  rfl

/-- C10: every `check_device` invocation emits the negative
`device_status = false` first — unconditionally, before the subscription
result is consulted and before any presence event can contribute to the
trace. -/
theorem check_device_initial_negative_first (env : CheckDeviceEnv)
    (events : List (Event × ConnectEnv)) :
    ∃ rest, (check_device env events).1 =
      Emitted.emit "device_status" false :: rest := by
  rcases env with ⟨sub⟩
  cases sub <;> exact ⟨_, rfl⟩

end Openitool
